import Mathlib

/-!
Shallow embedding of `src/backend/kuhp_agent.py` (KUHP Analyzer).

The analyzer keeps two uploaded document handles and an initialization flag,
filters queries by a fixed keyword list, and calls a remote generation
service with a retry/backoff loop.  External effects (file-system checks,
uploads, remote file-state lookups, remote generation, sleeps) are modelled
by explicit environments, and every function additionally returns the list
of external events it performs, in order.
-/

/-- A remote document handle as returned by the asset store
(`genai.upload_file`): a name plus a display name. -/
structure FileHandle where
  name : String
  display_name : String
deriving DecidableEq

/-- One part of the ordered payload passed to `model.generate_content`:
either a file handle or the prompt text. -/
inductive ContentPart
  | file (h : FileHandle)
  | text (s : String)
deriving DecidableEq

/-- External events, in the order the Python code performs them. -/
inductive Event
  | uploadCall (path display_name : String)
  | getFileCall (name : String)
  | generateCall (payload : List ContentPart)
  | sleep (duration : Nat)
deriving DecidableEq

/-- The distinct exception sites of `kuhp_agent.py`, by raise site:
`"Gemini belum diinisialisasi"`, `"PDF files belum di-upload"`,
`"KUHP {Lama,Baru} file is not active: {state}"`,
`"Empty response received from Gemini"`, plus errors raised by the
remote generation call itself. -/
inductive KErr
  | notInitialized
  | filesNotUploaded
  | fileNotActive (which st : String)
  | emptyResponse
  | remote (msg : String)
deriving DecidableEq

/-- Environment for the generation path: `getFileState a nm` is the state
string `genai.get_file(nm).state.name` observed during attempt `a`, and
`generate a payload` is the outcome of `model.generate_content(payload)`
on attempt `a` (`Except.ok t` returns a response whose `.text` is `t`;
`Except.error e` raises). -/
structure GenEnv where
  getFileState : Nat → String → String
  generate : Nat → List ContentPart → Except KErr String

/-- Analyzer state: the fields of `KUHPAnalyzer` the core logic reads and
writes (`is_initialized`, `old_kuhp_file`, `new_kuhp_file`). -/
structure AnalyzerState where
  is_initialized : Bool
  old_kuhp_file : Option FileHandle
  new_kuhp_file : Option FileHandle
deriving DecidableEq

/-- The dictionary returned by `analyze_differences`:
`{"response": …, "is_relevant": …, "files_used": …}`. -/
structure AnalysisResult where
  response : String
  is_relevant : Bool
  files_used : Nat
deriving DecidableEq

/-- `KUHPConfig`: model name, temperature (tenths, since the source value
is the float `0.1`), and the two document paths, with the source defaults. -/
structure KUHPConfig where
  model_name : String := "gemini-2.0-flash"
  temperature_tenths : Nat := 1
  old_kuhp_path : String := "documents/kuhp_old.pdf"
  new_kuhp_path : String := "documents/kuhp_new.pdf"

/-- Boolean test that `a` is a leading segment of `b`
(character-list version of Python string slicing used by `pyIn`). -/
def leadEq : List Char → List Char → Bool
  | [], _ => true
  | _ :: _, [] => false
  | a :: as, b :: bs => a == b && leadEq as bs

/-- Model of the Python substring operator `needle in hay` on strings,
as character lists. -/
def pyIn (needle : List Char) : List Char → Bool
  | [] => needle.isEmpty
  | c :: t => leadEq needle (c :: t) || pyIn needle t

/-- Model of `query.lower()`: the character data of the query with each
character lower-cased. -/
def lowerData (s : String) : List Char :=
  s.data.map Char.toLower

/-- The fixed keyword list `kuhp_keywords` of `_check_query_relevance`. -/
def kuhp_keywords : List String :=
  ["kuhp", "hukum pidana", "pasal", "pidana", "kejahatan", "pelanggaran",
   "pencurian", "pembunuhan", "penganiayaan", "penipuan", "korupsi",
   "perkosaan", "narkoba", "terorisme", "cyber", "cyber crime",
   "sanksi", "hukuman", "denda", "penjara", "kurungan", "tahanan",
   "tindak pidana", "delik", "unsur", "ancaman", "maksimal", "minimal"]

/-- `_check_query_relevance`: lower-case the query and test whether any
keyword occurs in it as a substring. -/
def check_query_relevance (query : String) : Bool :=
  let query_lower := lowerData query
  kuhp_keywords.any fun keyword => pyIn keyword.data query_lower

/-- `_get_irrelevant_response`: the fixed guidance text (the query argument
is unused by the source). -/
def get_irrelevant_response (_query : String) : String :=
  "Maaf, pertanyaan Anda sepertinya tidak terkait dengan KUHP (Kitab Undang-Undang Hukum Pidana) Indonesia.\n\nSaya adalah AI assistant yang khusus dirancang untuk menganalisis perbedaan antara KUHP lama dan KUHP baru yang berlaku di Indonesia.\n\nSilakan tanyakan hal-hal yang berkaitan dengan:\n• Pasal-pasal dalam KUHP\n• Jenis-jenis tindak pidana (kejahatan dan pelanggaran)\n• Sanksi dan hukuman dalam KUHP\n• Perbedaan ketentuan antara KUHP lama dan baru\n• Perubahan sistem pemidanaan\n\nContoh pertanyaan yang dapat saya bantu:\n- \"Apa perbedaan Pasal 351 tentang penganiayaan di KUHP lama dan baru?\"\n- \"Bagaimana perubahan ketentuan tentang pencurian?\"\n- \"Apa sanksi untuk tindak pidana korupsi di KUHP baru?\"\n"

/-- `_build_analysis_prompt`: the fixed template with the verbatim query
embedded. -/
def build_analysis_prompt (query : String) : String :=
  "Anda adalah AI assistant yang ahli dalam menganalisis KUHP (Kitab Undang-Undang Hukum Pidana) Indonesia.\n\nTugas Anda: Analisis perbedaan antara KUHP lama dan KUHP baru berdasarkan query pengguna dengan menggunakan kedua file PDF yang telah diberikan.\n\nQuery pengguna: " ++ query ++ "\n\n=== INSTRUKSI ANALISIS ===\n1. Baca dan analisis kedua file PDF KUHP (lama dan baru) yang telah diberikan\n2. Bandingkan ketentuan yang relevan dengan query pengguna\n3. Jelaskan perbedaan utama yang ditemukan\n4. Berikan analisis dampak dari perubahan tersebut\n5. Gunakan bahasa Indonesia yang jelas dan mudah dipahami\n6. Fokus pada aspek praktis dan implementasi\n7. Jika ada pasal yang dihapus, dipindahkan, atau ditambah, jelaskan dengan detail\n8. Kutip nomor pasal yang spesifik dari kedua versi KUHP\n\n=== FORMAT RESPONS ===\nBerikan analisis dalam format berikut:\n\n**Ringkasan Perbedaan:**\n[Jelaskan perbedaan utama dalam 2-3 kalimat]\n\n**Analisis Detail:**\n[Analisis mendalam tentang perubahan dengan kutipan pasal spesifik]\n\n**Dampak Praktis:**\n[Jelaskan dampak implementasi perubahan]\n\n**Kesimpulan:**\n[Ringkasan dan rekomendasi]\n\nJawab dalam bahasa Indonesia yang profesional dan informatif."

/-- `_verify_files_ready` during attempt `a`: fetch both handles' states
(old first, then new — both fetches happen before either check), then fail
if the old file is not ACTIVE, else if the new file is not ACTIVE. -/
def verify_files_ready (env : GenEnv) (a : Nat) (oldF newF : FileHandle) :
    Except KErr Unit × List Event :=
  let oldState := env.getFileState a oldF.name
  let newState := env.getFileState a newF.name
  let evs := [Event.getFileCall oldF.name, Event.getFileCall newF.name]
  if oldState ≠ "ACTIVE" then
    (Except.error (KErr.fileNotActive "KUHP Lama" oldState), evs)
  else if newState ≠ "ACTIVE" then
    (Except.error (KErr.fileNotActive "KUHP Baru" newState), evs)
  else (Except.ok (), evs)

/-- One iteration of the `for attempt in range(max_retries)` body of
`_generate_response_with_files`: verify readiness, build the ordered
payload `[old_kuhp_file, new_kuhp_file, prompt]`, call the remote
generation service, and fail with `emptyResponse` when the returned text
is falsy (empty). -/
def runAttempt (env : GenEnv) (a : Nat) (oldF newF : FileHandle)
    (prompt : String) : Except KErr String × List Event :=
  match verify_files_ready env a oldF newF with
  | (Except.error e, evs) => (Except.error e, evs)
  | (Except.ok _, evs) =>
    let content := [ContentPart.file oldF, ContentPart.file newF,
                    ContentPart.text prompt]
    match env.generate a content with
    | Except.error e => (Except.error e, evs ++ [Event.generateCall content])
    | Except.ok t =>
      if t ≠ "" then (Except.ok t, evs ++ [Event.generateCall content])
      else (Except.error KErr.emptyResponse, evs ++ [Event.generateCall content])

/-- The retry loop of `_generate_response_with_files`: `a` is the current
attempt index, the matched argument is the number of attempts still
allowed (`max_retries - a`, positive whenever the loop is entered), and
`delay` is the current `retry_delay`.  On failure with more than one
attempt left it sleeps `delay` and retries with the delay doubled; on
failure of the last attempt it re-raises the error unchanged. -/
def genLoop (env : GenEnv) (oldF newF : FileHandle) (prompt : String)
    (a : Nat) : Nat → Nat → Except KErr String × List Event
  | 0, _ => (Except.error KErr.emptyResponse, [])
  | fuel + 1, delay =>
    match runAttempt env a oldF newF prompt with
    | (Except.ok t, evs) => (Except.ok t, evs)
    | (Except.error e, evs) =>
      if fuel = 0 then (Except.error e, evs)
      else
        let rest := genLoop env oldF newF prompt (a + 1) fuel (delay * 2)
        (rest.1, evs ++ Event.sleep delay :: rest.2)

/-- `_generate_response_with_files`: `max_retries = 3`, `retry_delay = 2`. -/
def generate_response_with_files (env : GenEnv) (oldF newF : FileHandle)
    (prompt : String) : Except KErr String × List Event :=
  genLoop env oldF newF prompt 0 3 2

/-- `analyze_differences`: require initialization and both handles
non-null, short-circuit irrelevant queries with the fixed guidance text,
otherwise build the prompt and run the retrying generation; the wrapping
`try/except` re-raises every error unchanged. -/
def analyze_differences (env : GenEnv) (st : AnalyzerState) (query : String) :
    Except KErr AnalysisResult × List Event :=
  if st.is_initialized = false then (Except.error KErr.notInitialized, [])
  else
    match st.old_kuhp_file, st.new_kuhp_file with
    | some oldF, some newF =>
      if check_query_relevance query = false then
        (Except.ok ⟨get_irrelevant_response query, false, 0⟩, [])
      else
        match generate_response_with_files env oldF newF
            (build_analysis_prompt query) with
        | (Except.ok t, evs) => (Except.ok ⟨t, true, 2⟩, evs)
        | (Except.error e, evs) => (Except.error e, evs)
    | _, _ => (Except.error KErr.filesNotUploaded, [])

/-- Environment for the load path: `pathExists` models `Path.exists()`,
`upload path display_name` the handle returned by `genai.upload_file`, and
`poll elapsed nm` the state string `genai.get_file(nm).state.name` observed
when the elapsed wait time is `elapsed`. -/
structure LoadEnv where
  pathExists : String → Bool
  upload : String → String → FileHandle
  poll : Nat → String → String

/-- The `genai.get_file` calls one polling iteration performs: one per
handle that is present (`… if self.old_kuhp_file else None`). -/
def pollEvents (oldF newF : Option FileHandle) : List Event :=
  (match oldF with
   | some f => [Event.getFileCall f.name]
   | none => []) ++
  (match newF with
   | some f => [Event.getFileCall f.name]
   | none => [])

/-- The loop condition body test of `_wait_for_files_active`: both file
infos present and both states `"ACTIVE"`. -/
def bothActive (env : LoadEnv) (elapsed : Nat)
    (oldF newF : Option FileHandle) : Bool :=
  match oldF, newF with
  | some o, some n =>
    env.poll elapsed o.name == "ACTIVE" && env.poll elapsed n.name == "ACTIVE"
  | _, _ => false

/-- The `while elapsed < max_wait_time` loop of `_wait_for_files_active`
(`max_wait_time = 60`, `wait_interval = 2`).  `fuel` is a structural bound;
called with `fuel = 30` and `elapsed = 0` it is never exhausted before
`elapsed` reaches 60, so the fuel-out branch coincides with the loop exit. -/
def waitLoop (env : LoadEnv) (oldF newF : Option FileHandle) :
    Nat → Nat → List Event
  | _, 0 => []
  | elapsed, fuel + 1 =>
    if elapsed < 60 then
      let evs := pollEvents oldF newF
      if bothActive env elapsed oldF newF then evs
      else evs ++ Event.sleep 2 :: waitLoop env oldF newF (elapsed + 2) fuel
    else []

/-- `_wait_for_files_active`: poll every 2 time units up to 60; on timeout
it only logs and returns (no error value exists in its type). -/
def wait_for_files_active (env : LoadEnv) (oldF newF : Option FileHandle) :
    List Event :=
  waitLoop env oldF newF 0 30

/-- `load_documents`: upload the old document if its path exists (else
return `false`), then the new one likewise, then wait for activation and
set `is_initialized`.  Returns the boolean result, the updated analyzer
state, and the event trace. -/
def load_documents (cfg : KUHPConfig) (env : LoadEnv) (st : AnalyzerState) :
    (Bool × AnalyzerState) × List Event :=
  if env.pathExists cfg.old_kuhp_path then
    let oldF := env.upload cfg.old_kuhp_path "KUHP Lama"
    let st1 : AnalyzerState := { st with old_kuhp_file := some oldF }
    if env.pathExists cfg.new_kuhp_path then
      let newF := env.upload cfg.new_kuhp_path "KUHP Baru"
      let st2 : AnalyzerState := { st1 with new_kuhp_file := some newF }
      let evs := wait_for_files_active env st2.old_kuhp_file st2.new_kuhp_file
      ((true, { st2 with is_initialized := true }),
        Event.uploadCall cfg.old_kuhp_path "KUHP Lama" ::
          Event.uploadCall cfg.new_kuhp_path "KUHP Baru" :: evs)
    else ((false, st1), [Event.uploadCall cfg.old_kuhp_path "KUHP Lama"])
  else ((false, st), [])

/-- The sleep durations recorded in a trace, in order. -/
def sleepsOf (evs : List Event) : List Nat :=
  evs.filterMap fun e =>
    match e with
    | Event.sleep d => some d
    | _ => none

/-- The payloads of the remote generation calls in a trace, in order. -/
def genPayloads (evs : List Event) : List (List ContentPart) :=
  evs.filterMap fun e =>
    match e with
    | Event.generateCall c => some c
    | _ => none

/-- The number of remote file-state lookups in a trace. -/
def getFileCount (evs : List Event) : Nat :=
  (evs.filter fun e =>
    match e with
    | Event.getFileCall _ => true
    | _ => false).length

lemma sleepsOf_append (a b : List Event) :
    sleepsOf (a ++ b) = sleepsOf a ++ sleepsOf b := by
  simp [sleepsOf]

lemma genPayloads_append (a b : List Event) :
    genPayloads (a ++ b) = genPayloads a ++ genPayloads b := by
  simp [genPayloads]

lemma getFileCount_append (a b : List Event) :
    getFileCount (a ++ b) = getFileCount a + getFileCount b := by
  simp [getFileCount]

/-- The payload every generation attempt constructs. -/
def attemptPayload (oldF newF : FileHandle) (prompt : String) :
    List ContentPart :=
  [ContentPart.file oldF, ContentPart.file newF, ContentPart.text prompt]

lemma verify_files_ready_snd (env : GenEnv) (a : Nat)
    (oldF newF : FileHandle) :
    (verify_files_ready env a oldF newF).2 =
      [Event.getFileCall oldF.name, Event.getFileCall newF.name] := by
  unfold verify_files_ready
  dsimp only
  split
  · rfl
  · split <;> rfl

lemma runAttempt_shape (env : GenEnv) (a : Nat) (oldF newF : FileHandle)
    (prompt : String) :
    (runAttempt env a oldF newF prompt).2 =
        [Event.getFileCall oldF.name, Event.getFileCall newF.name] ∨
    (runAttempt env a oldF newF prompt).2 =
        [Event.getFileCall oldF.name, Event.getFileCall newF.name,
         Event.generateCall (attemptPayload oldF newF prompt)] := by
  unfold runAttempt attemptPayload
  rcases hv : verify_files_ready env a oldF newF with ⟨rv, evs⟩
  have hevs : evs =
      [Event.getFileCall oldF.name, Event.getFileCall newF.name] := by
    have h := verify_files_ready_snd env a oldF newF
    rw [hv] at h
    exact h
  subst hevs
  cases rv with
  | error e => left; rfl
  | ok u =>
    dsimp only
    split
    · right; rfl
    · split
      · right; rfl
      · right; rfl

lemma runAttempt_sleeps (env : GenEnv) (a : Nat) (oldF newF : FileHandle)
    (prompt : String) :
    sleepsOf (runAttempt env a oldF newF prompt).2 = [] := by
  rcases runAttempt_shape env a oldF newF prompt with h | h <;>
    rw [h] <;> rfl

lemma runAttempt_payloads (env : GenEnv) (a : Nat) (oldF newF : FileHandle)
    (prompt : String) :
    genPayloads (runAttempt env a oldF newF prompt).2 = [] ∨
    genPayloads (runAttempt env a oldF newF prompt).2 =
      [attemptPayload oldF newF prompt] := by
  rcases runAttempt_shape env a oldF newF prompt with h | h <;> rw [h]
  · left; rfl
  · right; rfl

lemma runAttempt_getFileCount (env : GenEnv) (a : Nat)
    (oldF newF : FileHandle) (prompt : String) :
    getFileCount (runAttempt env a oldF newF prompt).2 = 2 := by
  rcases runAttempt_shape env a oldF newF prompt with h | h <;>
    rw [h] <;> rfl

/-- Complete case analysis of the retry loop at its source parameters
(`max_retries = 3`, initial delay 2): success on attempt 0, success on
attempt 1 after one failure and a 2-unit sleep, or two failures with
sleeps 2 and 4 followed by attempt 2 whose outcome is final. -/
lemma gen_split (env : GenEnv) (oldF newF : FileHandle) (prompt : String) :
    ((∃ t, (runAttempt env 0 oldF newF prompt).1 = Except.ok t) ∧
      generate_response_with_files env oldF newF prompt =
        runAttempt env 0 oldF newF prompt) ∨
    ((∃ e, (runAttempt env 0 oldF newF prompt).1 = Except.error e) ∧
      (∃ t, (runAttempt env 1 oldF newF prompt).1 = Except.ok t) ∧
      generate_response_with_files env oldF newF prompt =
        ((runAttempt env 1 oldF newF prompt).1,
          (runAttempt env 0 oldF newF prompt).2 ++
            Event.sleep 2 :: (runAttempt env 1 oldF newF prompt).2)) ∨
    ((∃ e, (runAttempt env 0 oldF newF prompt).1 = Except.error e) ∧
      (∃ e, (runAttempt env 1 oldF newF prompt).1 = Except.error e) ∧
      generate_response_with_files env oldF newF prompt =
        ((runAttempt env 2 oldF newF prompt).1,
          (runAttempt env 0 oldF newF prompt).2 ++
            Event.sleep 2 :: ((runAttempt env 1 oldF newF prompt).2 ++
              Event.sleep 4 :: (runAttempt env 2 oldF newF prompt).2))) := by
  rcases h0 : runAttempt env 0 oldF newF prompt with ⟨r0, evs0⟩
  cases r0 with
  | ok t =>
    left
    exact ⟨⟨t, rfl⟩, by simp [generate_response_with_files, genLoop, h0]⟩
  | error e0 =>
    rcases h1 : runAttempt env 1 oldF newF prompt with ⟨r1, evs1⟩
    cases r1 with
    | ok t =>
      right; left
      refine ⟨⟨e0, rfl⟩, ⟨t, rfl⟩, ?_⟩
      simp [generate_response_with_files, genLoop, h0, h1]
    | error e1 =>
      right; right
      refine ⟨⟨e0, rfl⟩, ⟨e1, rfl⟩, ?_⟩
      rcases h2 : runAttempt env 2 oldF newF prompt with ⟨r2, evs2⟩
      cases r2 <;>
        simp [generate_response_with_files, genLoop, h0, h1, h2]

lemma sleepsOf_cons_sleep (d : Nat) (l : List Event) :
    sleepsOf (Event.sleep d :: l) = d :: sleepsOf l := by
  simp [sleepsOf]

lemma genPayloads_cons_sleep (d : Nat) (l : List Event) :
    genPayloads (Event.sleep d :: l) = genPayloads l := by
  simp [genPayloads]

lemma getFileCount_cons_sleep (d : Nat) (l : List Event) :
    getFileCount (Event.sleep d :: l) = getFileCount l := by
  simp [getFileCount]

lemma runAttempt_payloads_len (env : GenEnv) (a : Nat)
    (oldF newF : FileHandle) (prompt : String) :
    (genPayloads (runAttempt env a oldF newF prompt).2).length ≤ 1 := by
  rcases runAttempt_payloads env a oldF newF prompt with h | h <;>
    rw [h] <;> simp

lemma runAttempt_payloads_mem (env : GenEnv) (a : Nat)
    (oldF newF : FileHandle) (prompt : String) :
    ∀ c ∈ genPayloads (runAttempt env a oldF newF prompt).2,
      c = attemptPayload oldF newF prompt := by
  rcases runAttempt_payloads env a oldF newF prompt with h | h <;>
    rw [h] <;> simp

/-- C1: the retrying generation routine makes at most 3 attempts (at most
3 generation calls and at most 6 file-state lookups), the inter-attempt
sleep schedule is a prefix of 2, 4 (doubling from 2), and when it returns
an error that error is exactly the outcome of the 3rd (last) attempt,
propagated unchanged. -/
theorem c1_retry_backoff (env : GenEnv) (oldF newF : FileHandle)
    (prompt : String) :
    (sleepsOf (generate_response_with_files env oldF newF prompt).2 = [] ∨
     sleepsOf (generate_response_with_files env oldF newF prompt).2 = [2] ∨
     sleepsOf (generate_response_with_files env oldF newF prompt).2 = [2, 4]) ∧
    (genPayloads
      (generate_response_with_files env oldF newF prompt).2).length ≤ 3 ∧
    getFileCount (generate_response_with_files env oldF newF prompt).2 ≤ 6 ∧
    (∀ e, (generate_response_with_files env oldF newF prompt).1 =
        Except.error e →
      sleepsOf (generate_response_with_files env oldF newF prompt).2 =
        [2, 4] ∧
      (runAttempt env 2 oldF newF prompt).1 = Except.error e) := by
  rcases gen_split env oldF newF prompt with
    ⟨⟨t, ht⟩, hout⟩ | ⟨⟨e0, h0⟩, ⟨t, ht⟩, hout⟩ | ⟨⟨e0, h0⟩, ⟨e1, h1⟩, hout⟩
  · refine ⟨Or.inl ?_, ?_, ?_, ?_⟩
    · rw [hout, runAttempt_sleeps]
    · rw [hout]
      exact le_trans (runAttempt_payloads_len env 0 oldF newF prompt)
        (by norm_num)
    · rw [hout, runAttempt_getFileCount]
      norm_num
    · intro e he
      rw [hout, ht] at he
      cases he
  · have hsl : sleepsOf (generate_response_with_files env oldF newF prompt).2
        = [2] := by
      rw [hout]
      dsimp only
      rw [sleepsOf_append, runAttempt_sleeps, sleepsOf_cons_sleep,
        runAttempt_sleeps]
      rfl
    refine ⟨Or.inr (Or.inl hsl), ?_, ?_, ?_⟩
    · rw [hout]
      dsimp only
      rw [genPayloads_append, genPayloads_cons_sleep, List.length_append]
      have b0 := runAttempt_payloads_len env 0 oldF newF prompt
      have b1 := runAttempt_payloads_len env 1 oldF newF prompt
      omega
    · rw [hout]
      dsimp only
      rw [getFileCount_append, getFileCount_cons_sleep,
        runAttempt_getFileCount, runAttempt_getFileCount]
      norm_num
    · intro e he
      rw [hout] at he
      dsimp only at he
      rw [ht] at he
      cases he
  · have hsl : sleepsOf (generate_response_with_files env oldF newF prompt).2
        = [2, 4] := by
      rw [hout]
      dsimp only
      rw [sleepsOf_append, runAttempt_sleeps, sleepsOf_cons_sleep,
        sleepsOf_append, runAttempt_sleeps, sleepsOf_cons_sleep,
        runAttempt_sleeps]
      rfl
    refine ⟨Or.inr (Or.inr hsl), ?_, ?_, ?_⟩
    · rw [hout]
      dsimp only
      rw [genPayloads_append, genPayloads_cons_sleep, genPayloads_append,
        genPayloads_cons_sleep, List.length_append, List.length_append]
      have b0 := runAttempt_payloads_len env 0 oldF newF prompt
      have b1 := runAttempt_payloads_len env 1 oldF newF prompt
      have b2 := runAttempt_payloads_len env 2 oldF newF prompt
      omega
    · rw [hout]
      dsimp only
      rw [getFileCount_append, getFileCount_cons_sleep, getFileCount_append,
        getFileCount_cons_sleep, runAttempt_getFileCount,
        runAttempt_getFileCount, runAttempt_getFileCount]
    · intro e he
      rw [hout] at he
      exact ⟨hsl, he⟩

/-- Fixed old-document handle used for concrete instantiations. -/
def fOld : FileHandle := ⟨"files/old1", "KUHP Lama"⟩

/-- Fixed new-document handle used for concrete instantiations. -/
def fNew : FileHandle := ⟨"files/new1", "KUHP Baru"⟩

/-- Environment in which both files are always ACTIVE but every remote
generation call raises. -/
def envBoom : GenEnv :=
  ⟨fun _ _ => "ACTIVE", fun _ _ => Except.error (KErr.remote "boom")⟩

theorem c1_retry_backoff_witness :
    sleepsOf (generate_response_with_files envBoom fOld fNew "p").2 =
      [2, 4] ∧
    (runAttempt envBoom 2 fOld fNew "p").1 =
      Except.error (KErr.remote "boom") :=
  (c1_retry_backoff envBoom fOld fNew "p").2.2.2 (KErr.remote "boom")
    (by rfl)

/-- C2: the payloads of all remote generation calls performed by the
retrying generation routine all equal the ordered sequence
`[old handle, new handle, prompt]`. -/
theorem c2_payload_order (env : GenEnv) (oldF newF : FileHandle)
    (prompt : String) :
    genPayloads (generate_response_with_files env oldF newF prompt).2 =
      List.replicate
        (genPayloads
          (generate_response_with_files env oldF newF prompt).2).length
        [ContentPart.file oldF, ContentPart.file newF,
         ContentPart.text prompt] := by
  refine List.eq_replicate_length.mpr ?_
  intro c hc
  rcases gen_split env oldF newF prompt with
    ⟨_, hout⟩ | ⟨_, _, hout⟩ | ⟨_, _, hout⟩ <;> rw [hout] at hc
  · exact runAttempt_payloads_mem env 0 oldF newF prompt c hc
  · dsimp only at hc
    rw [genPayloads_append, genPayloads_cons_sleep] at hc
    rcases List.mem_append.mp hc with h | h
    · exact runAttempt_payloads_mem env 0 oldF newF prompt c h
    · exact runAttempt_payloads_mem env 1 oldF newF prompt c h
  · dsimp only at hc
    rw [genPayloads_append, genPayloads_cons_sleep, genPayloads_append,
      genPayloads_cons_sleep] at hc
    rcases List.mem_append.mp hc with h | h
    · exact runAttempt_payloads_mem env 0 oldF newF prompt c h
    rcases List.mem_append.mp h with h2 | h2
    · exact runAttempt_payloads_mem env 1 oldF newF prompt c h2
    · exact runAttempt_payloads_mem env 2 oldF newF prompt c h2

lemma runAttempt_verify_fail (env : GenEnv) (a : Nat)
    (oldF newF : FileHandle) (prompt : String)
    (h : env.getFileState a oldF.name ≠ "ACTIVE" ∨
      env.getFileState a newF.name ≠ "ACTIVE") :
    (∃ w s, (runAttempt env a oldF newF prompt).1 =
      Except.error (KErr.fileNotActive w s) ∧ s ≠ "ACTIVE") ∧
    (runAttempt env a oldF newF prompt).2 =
      [Event.getFileCall oldF.name, Event.getFileCall newF.name] := by
  by_cases ho : env.getFileState a oldF.name = "ACTIVE"
  · have hn : env.getFileState a newF.name ≠ "ACTIVE" := by tauto
    constructor
    · exact ⟨"KUHP Baru", env.getFileState a newF.name,
        by simp [runAttempt, verify_files_ready, ho, hn], hn⟩
    · simp [runAttempt, verify_files_ready, ho, hn]
  · constructor
    · exact ⟨"KUHP Lama", env.getFileState a oldF.name,
        by simp [runAttempt, verify_files_ready, ho], ho⟩
    · simp [runAttempt, verify_files_ready, ho]

/-- C5: within one attempt, a generation call happens only if the
readiness check of that same attempt observed both handles ACTIVE; if
either handle is not ACTIVE, the attempt makes no generation call and
fails with a file-not-active error; and a readiness failure on the first
attempt is transient: the loop sleeps 2 and continues. -/
theorem c5_verify_gates_generation (env : GenEnv) (a : Nat)
    (oldF newF : FileHandle) (prompt : String) :
    (genPayloads (runAttempt env a oldF newF prompt).2 ≠ [] →
      env.getFileState a oldF.name = "ACTIVE" ∧
      env.getFileState a newF.name = "ACTIVE") ∧
    ((env.getFileState a oldF.name ≠ "ACTIVE" ∨
      env.getFileState a newF.name ≠ "ACTIVE") →
      genPayloads (runAttempt env a oldF newF prompt).2 = [] ∧
      ∃ w s, (runAttempt env a oldF newF prompt).1 =
        Except.error (KErr.fileNotActive w s) ∧ s ≠ "ACTIVE") ∧
    ((env.getFileState 0 oldF.name ≠ "ACTIVE" ∨
      env.getFileState 0 newF.name ≠ "ACTIVE") →
      ∃ rest, (generate_response_with_files env oldF newF prompt).2 =
        Event.getFileCall oldF.name :: Event.getFileCall newF.name ::
          Event.sleep 2 :: rest) := by
  refine ⟨?_, ?_, ?_⟩
  · intro hne
    by_cases ho : env.getFileState a oldF.name = "ACTIVE"
    · by_cases hn : env.getFileState a newF.name = "ACTIVE"
      · exact ⟨ho, hn⟩
      · exfalso
        have := (runAttempt_verify_fail env a oldF newF prompt
          (Or.inr hn)).2
        rw [this] at hne
        exact hne rfl
    · exfalso
      have := (runAttempt_verify_fail env a oldF newF prompt
        (Or.inl ho)).2
      rw [this] at hne
      exact hne rfl
  · intro h
    have hfail := runAttempt_verify_fail env a oldF newF prompt h
    refine ⟨?_, hfail.1⟩
    rw [hfail.2]
    rfl
  · intro h
    have hfail := runAttempt_verify_fail env 0 oldF newF prompt h
    rcases gen_split env oldF newF prompt with
      ⟨⟨t, ht⟩, _⟩ | ⟨_, _, hout⟩ | ⟨_, _, hout⟩
    · rcases hfail.1 with ⟨w, s, he, _⟩
      rw [ht] at he
      cases he
    · refine ⟨(runAttempt env 1 oldF newF prompt).2, ?_⟩
      rw [hout]
      dsimp only
      rw [hfail.2]
      rfl
    · refine ⟨(runAttempt env 1 oldF newF prompt).2 ++
        Event.sleep 4 :: (runAttempt env 2 oldF newF prompt).2, ?_⟩
      rw [hout]
      dsimp only
      rw [hfail.2]
      rfl

/-- Environment in which both files always report PROCESSING. -/
def envProc : GenEnv :=
  ⟨fun _ _ => "PROCESSING", fun _ _ => Except.ok "halo"⟩

theorem c5_verify_gates_generation_witness :
    genPayloads (runAttempt envProc 0 fOld fNew "p").2 = [] ∧
    ∃ w s, (runAttempt envProc 0 fOld fNew "p").1 =
      Except.error (KErr.fileNotActive w s) ∧ s ≠ "ACTIVE" :=
  (c5_verify_gates_generation envProc 0 fOld fNew "p").2.1
    (Or.inl (by decide))

lemma analyze_uninit (env : GenEnv) (q : String) (st : AnalyzerState)
    (hi : st.is_initialized = false) :
    analyze_differences env st q = (Except.error KErr.notInitialized, []) := by
  simp [analyze_differences, hi]

lemma analyze_no_old (env : GenEnv) (q : String) (st : AnalyzerState)
    (hi : st.is_initialized = true) (ho : st.old_kuhp_file = none) :
    analyze_differences env st q =
      (Except.error KErr.filesNotUploaded, []) := by
  cases hn : st.new_kuhp_file <;>
    simp [analyze_differences, hi, ho, hn]

lemma analyze_no_new (env : GenEnv) (q : String) (st : AnalyzerState)
    (hi : st.is_initialized = true) (hn : st.new_kuhp_file = none) :
    analyze_differences env st q =
      (Except.error KErr.filesNotUploaded, []) := by
  cases ho : st.old_kuhp_file <;>
    simp [analyze_differences, hi, ho, hn]

lemma init_true_of_not_false (st : AnalyzerState)
    (h : ¬st.is_initialized = false) : st.is_initialized = true := by
  cases hb : st.is_initialized
  · exact absurd hb h
  · rfl

/-- C3: on an initialized analyzer, an irrelevant query returns exactly
the fixed guidance text with `is_relevant = false` and `files_used = 0`,
and performs no external events at all (no generation calls, no file-state
lookups). -/
theorem c3_irrelevant_short_circuit (env : GenEnv) (st : AnalyzerState)
    (q : String) (oldF newF : FileHandle)
    (hi : st.is_initialized = true)
    (ho : st.old_kuhp_file = some oldF)
    (hn : st.new_kuhp_file = some newF)
    (hrel : check_query_relevance q = false) :
    analyze_differences env st q =
      (Except.ok ⟨get_irrelevant_response q, false, 0⟩, []) := by
  simp [analyze_differences, hi, ho, hn, hrel]

/-- Environment in which both files are ACTIVE and generation succeeds. -/
def envIdle : GenEnv :=
  ⟨fun _ _ => "ACTIVE", fun _ _ => Except.ok "jawaban"⟩

/-- An initialized analyzer state with both handles present. -/
def stReady : AnalyzerState := ⟨true, some fOld, some fNew⟩

/-- An uninitialized analyzer state. -/
def stUninit : AnalyzerState := ⟨false, none, none⟩

theorem c3_irrelevant_short_circuit_witness :
    analyze_differences envIdle stReady "Bagaimana cuaca hari ini?" =
      (Except.ok
        ⟨get_irrelevant_response "Bagaimana cuaca hari ini?", false, 0⟩,
       []) :=
  c3_irrelevant_short_circuit envIdle stReady "Bagaimana cuaca hari ini?"
    fOld fNew rfl rfl rfl (by decide)

/-- C8: on an analyzer that is not initialized or has a missing handle,
every query fails with the corresponding initialization error and performs
no external events. -/
theorem c8_not_initialized (env : GenEnv) (st : AnalyzerState) (q : String)
    (h : st.is_initialized = false ∨ st.old_kuhp_file = none ∨
      st.new_kuhp_file = none) :
    ((analyze_differences env st q).1 = Except.error KErr.notInitialized ∨
     (analyze_differences env st q).1 = Except.error KErr.filesNotUploaded) ∧
    (analyze_differences env st q).2 = [] := by
  rcases h with h | h | h
  · rw [analyze_uninit env q st h]
    exact ⟨Or.inl rfl, rfl⟩
  · by_cases hi : st.is_initialized = false
    · rw [analyze_uninit env q st hi]
      exact ⟨Or.inl rfl, rfl⟩
    · rw [analyze_no_old env q st (init_true_of_not_false st hi) h]
      exact ⟨Or.inr rfl, rfl⟩
  · by_cases hi : st.is_initialized = false
    · rw [analyze_uninit env q st hi]
      exact ⟨Or.inl rfl, rfl⟩
    · rw [analyze_no_new env q st (init_true_of_not_false st hi) h]
      exact ⟨Or.inr rfl, rfl⟩

theorem c8_not_initialized_witness :
    ((analyze_differences envIdle stUninit "kuhp").1 =
        Except.error KErr.notInitialized ∨
     (analyze_differences envIdle stUninit "kuhp").1 =
        Except.error KErr.filesNotUploaded) ∧
    (analyze_differences envIdle stUninit "kuhp").2 = [] :=
  c8_not_initialized envIdle stUninit "kuhp" (Or.inl rfl)

/-- C10 (implicit): the initialization and handle-null checks run before
the relevance filter, so even an off-domain query on an uninitialized or
handle-less analyzer raises the corresponding initialization error, and
the canned irrelevant-query guidance is never returned in that case. -/
theorem c10_init_checks_before_relevance (env : GenEnv)
    (st : AnalyzerState) (q : String)
    (hrel : check_query_relevance q = false) :
    (st.is_initialized = false →
      analyze_differences env st q =
        (Except.error KErr.notInitialized, [])) ∧
    (st.is_initialized = true →
      st.old_kuhp_file = none ∨ st.new_kuhp_file = none →
      analyze_differences env st q =
        (Except.error KErr.filesNotUploaded, [])) ∧
    ((st.is_initialized = false ∨ st.old_kuhp_file = none ∨
        st.new_kuhp_file = none) →
      (analyze_differences env st q).1 ≠
        Except.ok ⟨get_irrelevant_response q, false, 0⟩) := by
  refine ⟨fun hi => analyze_uninit env q st hi, ?_, ?_⟩
  · intro hi h
    rcases h with h | h
    · exact analyze_no_old env q st hi h
    · exact analyze_no_new env q st hi h
  · intro h
    rcases h with h | h | h
    · rw [analyze_uninit env q st h]
      simp
    · by_cases hi : st.is_initialized = false
      · rw [analyze_uninit env q st hi]
        simp
      · rw [analyze_no_old env q st (init_true_of_not_false st hi) h]
        simp
    · by_cases hi : st.is_initialized = false
      · rw [analyze_uninit env q st hi]
        simp
      · rw [analyze_no_new env q st (init_true_of_not_false st hi) h]
        simp

theorem c10_init_checks_before_relevance_witness :
    analyze_differences envIdle stUninit "Bagaimana cuaca hari ini?" =
      (Except.error KErr.notInitialized, []) :=
  (c10_init_checks_before_relevance envIdle stUninit
    "Bagaimana cuaca hari ini?" (by decide)).1 rfl

/-- C9 (amended): when the retrying generation routine fails, the error it
raised is propagated by `analyze_differences` to its caller unchanged (the
source only logs a generic "Analysis failed" message and re-raises). -/
theorem c9_error_propagation (env : GenEnv) (st : AnalyzerState)
    (q : String) (oldF newF : FileHandle) (e : KErr)
    (hi : st.is_initialized = true)
    (ho : st.old_kuhp_file = some oldF)
    (hn : st.new_kuhp_file = some newF)
    (hrel : check_query_relevance q = true)
    (hf : (generate_response_with_files env oldF newF
      (build_analysis_prompt q)).1 = Except.error e) :
    (analyze_differences env st q).1 = Except.error e := by
  rcases hg : generate_response_with_files env oldF newF
      (build_analysis_prompt q) with ⟨r, evs⟩
  rw [hg] at hf
  dsimp only at hf
  subst hf
  simp [analyze_differences, hi, ho, hn, hrel, hg]

/-- C9 counterexample: with both files ACTIVE and a remote service that
always raises the error `remote "boom"`, `analyze_differences` surfaces
exactly that underlying error to its caller — not a generic
"analysis failed" error. -/
theorem c9_counterexample :
    (analyze_differences envBoom stReady "kuhp").1 =
      Except.error (KErr.remote "boom") := by
  rfl

theorem c9_error_propagation_witness :
    (analyze_differences envBoom stReady "kuhp").1 =
      Except.error (KErr.remote "boom") :=
  c9_error_propagation envBoom stReady "kuhp" fOld fNew
    (KErr.remote "boom") rfl rfl rfl (by rfl) (by rfl)

lemma leadEq_iff : ∀ a b : List Char, leadEq a b = true ↔ ∃ t, a ++ t = b
  | [], b => by
    simp [leadEq]
  | a :: as, [] => by
    simp [leadEq]
  | a :: as, b :: bs => by
    rw [leadEq]
    rw [Bool.and_eq_true]
    rw [leadEq_iff as bs]
    constructor
    · rintro ⟨hab, t, ht⟩
      refine ⟨t, ?_⟩
      rw [List.cons_append, ht, beq_iff_eq.mp hab]
    · rintro ⟨t, ht⟩
      rw [List.cons_append] at ht
      injection ht with h1 h2
      exact ⟨beq_iff_eq.mpr h1, t, h2⟩

lemma pyIn_iff : ∀ (b a : List Char), pyIn a b = true ↔ ∃ s t, s ++ a ++ t = b
  | [], a => by
    rw [pyIn]
    rw [List.isEmpty_iff]
    constructor
    · rintro rfl
      exact ⟨[], [], rfl⟩
    · rintro ⟨s, t, h⟩
      rcases List.append_eq_nil.mp h with ⟨h2, _⟩
      rcases List.append_eq_nil.mp h2 with ⟨_, ha⟩
      exact ha
  | c :: bs, a => by
    rw [pyIn]
    rw [Bool.or_eq_true]
    rw [leadEq_iff a (c :: bs)]
    rw [pyIn_iff bs a]
    constructor
    · rintro (⟨t, ht⟩ | ⟨s, t, h⟩)
      · exact ⟨[], t, by rw [List.nil_append, ht]⟩
      · exact ⟨c :: s, t, by rw [List.cons_append, List.cons_append, h]⟩
    · rintro ⟨s, t, h⟩
      cases s with
      | nil =>
        rw [List.nil_append] at h
        exact Or.inl ⟨t, h⟩
      | cons c2 s2 =>
        rw [List.cons_append, List.cons_append] at h
        injection h with h1 h2
        exact Or.inr ⟨s2, t, h2⟩

/-- C4: `_check_query_relevance` returns true exactly when some fixed
domain keyword occurs as a contiguous substring of the lower-cased query,
at any position (the Python `in` operator, not tokenized matching). -/
theorem c4_relevance_iff (q : String) :
    check_query_relevance q = true ↔
      ∃ k ∈ kuhp_keywords, ∃ s t, s ++ k.data ++ t = lowerData q := by
  unfold check_query_relevance
  rw [List.any_eq_true]
  constructor
  · rintro ⟨k, hk, h⟩
    exact ⟨k, hk, (pyIn_iff (lowerData q) k.data).mp h⟩
  · rintro ⟨k, hk, h⟩
    exact ⟨k, hk, (pyIn_iff (lowerData q) k.data).mpr h⟩

theorem c4_relevance_iff_witness :
    ∃ k ∈ kuhp_keywords,
      ∃ s t, s ++ k.data ++ t = lowerData "Apa itu KUHP?" :=
  (c4_relevance_iff "Apa itu KUHP?").mp (by decide)

lemma sleepsOf_pollEvents (o n : Option FileHandle) :
    sleepsOf (pollEvents o n) = [] := by
  cases o <;> cases n <;> rfl

lemma waitLoop_sleeps_two (env : LoadEnv) (o n : Option FileHandle) :
    ∀ fuel elapsed d, d ∈ sleepsOf (waitLoop env o n elapsed fuel) →
      d = 2 := by
  intro fuel
  induction fuel with
  | zero =>
    intro elapsed d hd
    simp [waitLoop, sleepsOf] at hd
  | succ f ih =>
    intro elapsed d hd
    rw [waitLoop] at hd
    split at hd
    · split at hd
      · rw [sleepsOf_pollEvents] at hd
        cases hd
      · rw [sleepsOf_append, sleepsOf_pollEvents, sleepsOf_cons_sleep] at hd
        simp only [List.nil_append, List.mem_cons] at hd
        rcases hd with rfl | hd
        · rfl
        · exact ih _ d hd
    · simp [sleepsOf] at hd

lemma waitLoop_sleeps_len (env : LoadEnv) (o n : Option FileHandle) :
    ∀ fuel elapsed,
      (sleepsOf (waitLoop env o n elapsed fuel)).length ≤ fuel := by
  intro fuel
  induction fuel with
  | zero =>
    intro elapsed
    simp [waitLoop, sleepsOf]
  | succ f ih =>
    intro elapsed
    rw [waitLoop]
    split
    · split
      · rw [sleepsOf_pollEvents]
        simp
      · rw [sleepsOf_append, sleepsOf_pollEvents, sleepsOf_cons_sleep]
        simp only [List.nil_append, List.length_cons]
        exact Nat.succ_le_succ (ih _)
    · simp [sleepsOf]

lemma sum_of_all_two :
    ∀ l : List Nat, (∀ d ∈ l, d = 2) → l.sum = 2 * l.length := by
  intro l
  induction l with
  | nil => simp
  | cons a t ih =>
    intro h
    rw [List.sum_cons, List.length_cons, h a (List.mem_cons_self a t),
      ih (fun d hd => h d (List.mem_cons_of_mem a hd))]
    ring

/-- C7: the wait-for-active loop only ever sleeps in 2-unit steps, sleeps
at most 60 time units in total, returns immediately (after the two state
lookups) as soon as both handles report ACTIVE within the budget, and a
timeout never fails the load: whenever both paths exist, `load_documents`
still returns true and initializes the analyzer, whatever the polling
observed. -/
theorem c7_wait_budget (env : LoadEnv) (o n : FileHandle) :
    (∀ d ∈ sleepsOf (wait_for_files_active env (some o) (some n)), d = 2) ∧
    (sleepsOf (wait_for_files_active env (some o) (some n))).sum ≤ 60 ∧
    (∀ elapsed fuel, elapsed < 60 →
      env.poll elapsed o.name = "ACTIVE" →
      env.poll elapsed n.name = "ACTIVE" →
      waitLoop env (some o) (some n) elapsed (fuel + 1) =
        [Event.getFileCall o.name, Event.getFileCall n.name]) ∧
    (∀ cfg st, env.pathExists cfg.old_kuhp_path = true →
      env.pathExists cfg.new_kuhp_path = true →
      (load_documents cfg env st).1.1 = true ∧
      (load_documents cfg env st).1.2.is_initialized = true) := by
  refine ⟨?_, ?_, ?_, ?_⟩
  · exact fun d hd => waitLoop_sleeps_two env (some o) (some n) 30 0 d hd
  · have hall : ∀ d ∈ sleepsOf (wait_for_files_active env (some o)
        (some n)), d = 2 :=
      fun d hd => waitLoop_sleeps_two env (some o) (some n) 30 0 d hd
    rw [sum_of_all_two _ hall]
    have hlen := waitLoop_sleeps_len env (some o) (some n) 30 0
    have hlen2 : (sleepsOf (wait_for_files_active env (some o)
        (some n))).length ≤ 30 := hlen
    omega
  · intro elapsed fuel he hpo hpn
    have hb : bothActive env elapsed (some o) (some n) = true := by
      simp [bothActive, hpo, hpn]
    rw [waitLoop]
    simp [he, hb, pollEvents]
  · intro cfg st hpo hpn
    constructor <;> simp [load_documents, hpo, hpn]

/-- Load environment in which every path exists and every poll reports
ACTIVE. -/
def loadEnvActive : LoadEnv :=
  ⟨fun _ => true, fun p d => ⟨p, d⟩, fun _ _ => "ACTIVE"⟩

theorem c7_wait_budget_witness :
    waitLoop loadEnvActive (some fOld) (some fNew) 0 1 =
      [Event.getFileCall fOld.name, Event.getFileCall fNew.name] :=
  (c7_wait_budget loadEnvActive fOld fNew).2.2.1 0 0 (by decide) rfl rfl

/-- C6: if either configured path does not exist, `load_documents` returns
false and the analyzer stays uninitialized; and when the old path existed
(so its upload happened) but the new one is missing, the old handle is
kept in the returned state. -/
theorem c6_load_missing_path (cfg : KUHPConfig) (env : LoadEnv)
    (st : AnalyzerState) (hinit : st.is_initialized = false)
    (hmiss : env.pathExists cfg.old_kuhp_path = false ∨
      env.pathExists cfg.new_kuhp_path = false) :
    (load_documents cfg env st).1.1 = false ∧
    (load_documents cfg env st).1.2.is_initialized = false ∧
    (env.pathExists cfg.old_kuhp_path = true →
      (load_documents cfg env st).1.2.old_kuhp_file =
        some (env.upload cfg.old_kuhp_path "KUHP Lama")) := by
  by_cases ho : env.pathExists cfg.old_kuhp_path = true
  · have hn : env.pathExists cfg.new_kuhp_path = false := by
      rcases hmiss with h | h
      · rw [ho] at h
        cases h
      · exact h
    refine ⟨?_, ?_, fun _ => ?_⟩ <;> simp [load_documents, ho, hn, hinit]
  · have ho2 : env.pathExists cfg.old_kuhp_path = false := by
      cases hb : env.pathExists cfg.old_kuhp_path
      · rfl
      · exact absurd hb ho
    refine ⟨?_, ?_, ?_⟩
    · simp [load_documents, ho2]
    · simp [load_documents, ho2, hinit]
    · intro hc
      rw [ho2] at hc
      cases hc

/-- Load environment in which only the old document path exists. -/
def loadEnvOldOnly : LoadEnv :=
  ⟨fun p => p == "documents/kuhp_old.pdf", fun p d => ⟨p, d⟩,
   fun _ _ => "PROCESSING"⟩

/-- The default configuration instance. -/
def cfg0 : KUHPConfig := {}

theorem c6_load_missing_path_witness :
    (load_documents cfg0 loadEnvOldOnly stUninit).1.1 = false ∧
    (load_documents cfg0 loadEnvOldOnly stUninit).1.2.is_initialized =
      false ∧
    (loadEnvOldOnly.pathExists cfg0.old_kuhp_path = true →
      (load_documents cfg0 loadEnvOldOnly stUninit).1.2.old_kuhp_file =
        some (loadEnvOldOnly.upload cfg0.old_kuhp_path "KUHP Lama")) :=
  c6_load_missing_path cfg0 loadEnvOldOnly stUninit rfl
    (Or.inr (by decide))
